import Mathlib

/-!
Verification of the blog application's comment and rating domain logic
(`src/modules/blog/views.py`), embedded shallowly: the relational store is a
list of rows, each Django view handler becomes a pure function from the
request data and the current store to the new store and the response payload.
-/

namespace Selfincome

/-! ### Rating data model and `RatingCreateView.post` -/

/-- A row of the ratings table: `Rating(article, ip_address, value, user)`.
`user` is the optional authenticated user's id. -/
structure RatingRow where
  article_id : Nat
  ip_address : String
  value : Int
  user : Option Nat
deriving Repr, DecidableEq

/-- The ratings table, in insertion order. -/
abbrev RatingDB := List RatingRow

/-- The lookup filter of `get_or_create(article_id=…, ip_address=…)`:
a row matches when both key columns match. -/
def ratingKey (article_id : Nat) (ip_address : String) (r : RatingRow) : Bool :=
  r.article_id == article_id && r.ip_address == ip_address

/-- Modelled from the spec: `Article.get_sum_rating` lives in
`src/modules/blog/models.py`, which is not part of the provided sources; the
spec defines the aggregate as "the sum of all rating values for that
article", computed fresh from the store. -/
def get_sum_rating (db : RatingDB) (article_id : Nat) : Int :=
  ((db.filter fun r => r.article_id == article_id).map RatingRow.value).sum

/-- The JSON payload returned by `RatingCreateView.post`:
`{'status': …, 'rating_sum': …}`. -/
structure VoteResult where
  status : String
  rating_sum : Int
deriving Repr, DecidableEq

/-- `rating.value = value; rating.user = user; rating.save()` mutates the one
row found by `get_or_create`, i.e. the first row matching the key. -/
def updateFirst (p : RatingRow → Bool) (f : RatingRow → RatingRow) :
    RatingDB → RatingDB
  | [] => []
  | x :: xs => if p x then f x :: xs else x :: updateFirst p f xs

/-- `RatingCreateView.post` (views.py:229-250): `get_or_create` keyed by
`(article_id, ip_address)` with the posted value and optional user as
defaults; if a row already existed, same value deletes it (toggle-off) and a
different value overwrites value and user; the response carries a status tag
and `get_sum_rating` recomputed after the mutation. -/
def vote (db : RatingDB) (article_id : Nat) (ip_address : String)
    (value : Int) (user : Option Nat) : RatingDB × VoteResult :=
  match db.find? (ratingKey article_id ip_address) with
  | none =>
      let db' := db ++ [⟨article_id, ip_address, value, user⟩]
      (db', ⟨"created", get_sum_rating db' article_id⟩)
  | some rating =>
      if rating.value = value then
        let db' := db.eraseP (ratingKey article_id ip_address)
        (db', ⟨"deleted", get_sum_rating db' article_id⟩)
      else
        let db' := updateFirst (ratingKey article_id ip_address)
          (fun r => { r with value := value, user := user }) db
        (db', ⟨"updated", get_sum_rating db' article_id⟩)

/-! ### Comment data model and `CommentCreateView.form_valid` -/

/-- The authenticated-user record; `profile_url` stands for
`user.profile.get_absolute_url()`, supplied by the identity provider. -/
structure User where
  id : Nat
  username : String
  email : String
  profile_url : String
deriving Repr, DecidableEq

/-- The cleaned data of `CommentCreateForm`: comment text, the anonymous
name/email inputs, and the optional hidden parent-comment id. -/
structure CommentForm where
  content : String
  name : String
  email : String
  parent : Option Nat
deriving Repr, DecidableEq

/-- A row of the comments table. -/
structure CommentRow where
  id : Nat
  article_id : Nat
  author : Option Nat
  name : String
  email : String
  parent_id : Option Nat
  content : String
deriving Repr, DecidableEq

/-- The JSON payload `CommentCreateView.form_valid` returns for asynchronous
(AJAX) requests; `time_create` and `avatar` come from the saved model
instance and are carried through opaquely. -/
structure CommentAjaxData where
  is_child : Bool
  id : Nat
  author : String
  parent_id : Option Nat
  time_create : String
  avatar : String
  content : String
  get_absolute_url : String
deriving Repr, DecidableEq

/-- The field assignments of `form_valid` (views.py:142-155): the article id
comes from the URL kwargs; an authenticated request sets the author
reference and copies the session user's username and email into name and
email, an anonymous request takes name and email from the form; the parent
id comes from the form's cleaned data. -/
def commentFromForm (article_id : Nat) (user : Option User)
    (form : CommentForm) (new_id : Nat) : CommentRow :=
  match user with
  | some u =>
      { id := new_id, article_id := article_id, author := some u.id,
        name := u.username, email := u.email, parent_id := form.parent,
        content := form.content }
  | none =>
      { id := new_id, article_id := article_id, author := none,
        name := form.name, email := form.email, parent_id := form.parent,
        content := form.content }

/-- `CommentCreateView.form_valid` (views.py:142-182): saves the comment row
and, for an AJAX request, builds the JSON payload — `author` and
`get_absolute_url` come from the session user (profile link) when
authenticated and from the stored name and `mailto:` email otherwise;
`is_child` is `comment.is_child_node()`, true exactly when a parent is set.
Returns the stored row and the payload (`none` models the redirect reply). -/
def form_valid (article_id : Nat) (user : Option User) (form : CommentForm)
    (new_id : Nat) (time_create avatar : String) (is_ajax : Bool) :
    CommentRow × Option CommentAjaxData :=
  let comment := commentFromForm article_id user form new_id
  if is_ajax then
    match user with
    | some u =>
        (comment, some
          { is_child := comment.parent_id.isSome, id := comment.id,
            author := u.username, parent_id := comment.parent_id,
            time_create := time_create, avatar := avatar,
            content := comment.content,
            get_absolute_url := u.profile_url })
    | none =>
        (comment, some
          { is_child := comment.parent_id.isSome, id := comment.id,
            author := comment.name, parent_id := comment.parent_id,
            time_create := time_create, avatar := avatar,
            content := comment.content,
            get_absolute_url := "mailto:" ++ comment.email })
  else (comment, none)

/-- Modelled from the spec: `CommentCreateForm` lives in
`src/modules/blog/forms.py`, which is not part of the provided sources; the
spec requires that a cited parent id "must reference an existing comment on
the same article (else fails with ValidationError)". -/
def clean_parent (comments : List CommentRow) (article_id : Nat)
    (parent : Option Nat) : Except String Unit :=
  match parent with
  | none => Except.ok ()
  | some pid =>
      if comments.any fun c => c.id == pid && c.article_id == article_id then
        Except.ok ()
      else Except.error "ValidationError"

/-- The whole comment submission: validation (spec-modelled `clean_parent`)
followed by the save in `form_valid`; a validation failure persists
nothing. -/
def submitComment (comments : List CommentRow) (article_id : Nat)
    (user : Option User) (form : CommentForm) (new_id : Nat) :
    Except String (List CommentRow × CommentRow) :=
  match clean_parent comments article_id form.parent with
  | Except.error e => Except.error e
  | Except.ok _ =>
      let c := commentFromForm article_id user form new_id
      Except.ok (comments ++ [c], c)

/-! ### `ArticleDetailView.get_similar_articles` -/

/-- An article row restricted to what the similar-articles query reads:
its id and the ids of its tags. -/
structure TaggedArticle where
  id : Nat
  tags : List Nat
deriving Repr, DecidableEq

/-- The `related_tags=Count('tags')` annotation: with the `tags__in` filter
in place the count is the number of the candidate's tags shared with the
reference article's tags. -/
def related_tags (obj a : TaggedArticle) : Nat :=
  (a.tags.filter fun t => obj.tags.contains t).length

/-- The queryset of views.py:43-46: all articles sharing at least one tag
with `obj`, excluding `obj` itself, ordered by shared-tag count
descending. -/
def similarCandidates (db : List TaggedArticle) (obj : TaggedArticle) :
    List TaggedArticle :=
  ((db.filter fun a =>
      (a.tags.any fun t => obj.tags.contains t) && a.id != obj.id).mergeSort
    fun a b => related_tags obj b ≤ related_tags obj a)

/-- `get_similar_articles` (views.py:42-48): rank the candidates, shuffle the
whole list (`random.shuffle`, abstracted as the permutation-producing
`shuffle` argument), and keep the first 6. -/
def get_similar_articles (shuffle : List TaggedArticle → List TaggedArticle)
    (db : List TaggedArticle) (obj : TaggedArticle) : List TaggedArticle :=
  (shuffle (similarCandidates db obj)).take 6

/-! ### Helper lemmas -/

theorem ratingKey_self (aid : Nat) (ip : String) (v : Int) (u : Option Nat) :
    ratingKey aid ip ⟨aid, ip, v, u⟩ = true := by
  simp [ratingKey]

theorem find?_append_singleton {p : RatingRow → Bool} (db : RatingDB)
    (row : RatingRow) (h : db.find? p = none) (hrow : p row = true) :
    (db ++ [row]).find? p = some row := by
  rw [List.find?_append, h]
  simp [List.find?_cons, hrow]

theorem eraseP_append_singleton {p : RatingRow → Bool} (db : RatingDB)
    (row : RatingRow) (h : db.find? p = none) (hrow : p row = true) :
    (db ++ [row]).eraseP p = db := by
  have hany : db.any p = false :=
    List.any_eq_false.mpr (List.find?_eq_none.mp h)
  rw [List.eraseP_append, hany]
  simp [List.eraseP_cons, hrow]

theorem updateFirst_append {p : RatingRow → Bool} {f : RatingRow → RatingRow}
    (db l : RatingDB) (h : ∀ x ∈ db, p x = false) :
    updateFirst p f (db ++ l) = db ++ updateFirst p f l := by
  induction db with
  | nil => simp
  | cons x xs ih =>
      have hx : p x = false := h x (by simp)
      simp only [List.cons_append, updateFirst, hx, Bool.false_eq_true,
        if_false, List.cons.injEq, true_and]
      exact ih fun y hy => h y (by simp [hy])

theorem filter_eq_nil_of_find?_none {p : RatingRow → Bool} (db : RatingDB)
    (h : db.find? p = none) : db.filter p = [] :=
  List.filter_eq_nil_iff.mpr (List.find?_eq_none.mp h)

/-! ### Claim theorems -/

/-- C3: every outcome of `vote` (created, deleted, updated) returns, next to
its status tag, an aggregate equal to `get_sum_rating` — the sum of all
rating values stored for the article — evaluated on the post-mutation
store, so a deleted vote is excluded from and a created vote included in
the returned aggregate. -/
theorem vote_returns_fresh_aggregate (db : RatingDB) (aid : Nat)
    (ip : String) (v : Int) (u : Option Nat) :
    (vote db aid ip v u).2.rating_sum =
      get_sum_rating (vote db aid ip v u).1 aid := by
  unfold vote
  cases h : db.find? (ratingKey aid ip) with
  | none => rfl
  | some r =>
      by_cases hv : r.value = v <;> simp [hv]

/-- C1: from a state with no rating row for `(article_id, ip)`, two `vote`
calls with the same value return statuses "created" then "deleted" and
restore the store to its initial state, leaving no rating row for the
key. -/
theorem vote_same_value_roundtrip (db : RatingDB) (aid : Nat) (ip : String)
    (v : Int) (u1 u2 : Option Nat)
    (h : db.find? (ratingKey aid ip) = none) :
    (vote db aid ip v u1).2.status = "created" ∧
    (vote (vote db aid ip v u1).1 aid ip v u2).2.status = "deleted" ∧
    (vote (vote db aid ip v u1).1 aid ip v u2).1 = db ∧
    (vote (vote db aid ip v u1).1 aid ip v u2).1.find? (ratingKey aid ip)
      = none := by
  have hrow := ratingKey_self aid ip v u1
  have h1 : (vote db aid ip v u1).1 = db ++ [⟨aid, ip, v, u1⟩] := by
    unfold vote; rw [h]
  have hfind : List.find? (ratingKey aid ip)
        (db ++ [(⟨aid, ip, v, u1⟩ : RatingRow)])
      = some ⟨aid, ip, v, u1⟩ := find?_append_singleton db _ h hrow
  have h2 : (vote (vote db aid ip v u1).1 aid ip v u2).1 = db := by
    rw [h1]; unfold vote; rw [hfind]
    simp only [if_pos rfl]
    exact eraseP_append_singleton db _ h hrow
  refine ⟨by unfold vote; rw [h], ?_, h2, by rw [h2]; exact h⟩
  rw [h1]; unfold vote; rw [hfind]; simp

/-- C2: from a state with no rating row for `(article_id, ip)`, `vote(+1)`
then `vote(-1)` return statuses "created" then "updated" and leave exactly
one rating row for the key, holding value `-1` and the second call's user
reference (both value and user are overwritten). -/
theorem vote_opposite_value_updates (db : RatingDB) (aid : Nat) (ip : String)
    (u1 u2 : Option Nat) (h : db.find? (ratingKey aid ip) = none) :
    (vote db aid ip 1 u1).2.status = "created" ∧
    (vote (vote db aid ip 1 u1).1 aid ip (-1) u2).2.status = "updated" ∧
    (vote (vote db aid ip 1 u1).1 aid ip (-1) u2).1.filter (ratingKey aid ip)
      = [⟨aid, ip, -1, u2⟩] := by
  have hrow := ratingKey_self aid ip 1 u1
  have h1 : (vote db aid ip 1 u1).1 = db ++ [⟨aid, ip, 1, u1⟩] := by
    unfold vote; rw [h]
  have hfind : List.find? (ratingKey aid ip)
        (db ++ [(⟨aid, ip, 1, u1⟩ : RatingRow)])
      = some ⟨aid, ip, 1, u1⟩ := find?_append_singleton db _ h hrow
  have hne : (1 : Int) ≠ -1 := by decide
  have h2 : (vote (vote db aid ip 1 u1).1 aid ip (-1) u2).1
      = db ++ [⟨aid, ip, -1, u2⟩] := by
    rw [h1]; unfold vote; rw [hfind]
    simp only [if_neg hne]
    rw [updateFirst_append db _ fun x hx => by
      simpa using List.find?_eq_none.mp h x hx]
    simp [updateFirst, hrow]
  refine ⟨by unfold vote; rw [h], ?_, ?_⟩
  · rw [h1]; unfold vote; rw [hfind]; simp [hne]
  · rw [h2, List.filter_append, filter_eq_nil_of_find?_none db h]
    simp [ratingKey_self]

/-- Witness for C1: the round trip at a concrete input. -/
theorem vote_same_value_roundtrip_witness :
    (vote [] 1 "10.0.0.1" 1 none).2.status = "created" ∧
    (vote (vote [] 1 "10.0.0.1" 1 none).1 1 "10.0.0.1" 1 (some 7)).2.status
      = "deleted" ∧
    (vote (vote [] 1 "10.0.0.1" 1 none).1 1 "10.0.0.1" 1 (some 7)).1 = [] ∧
    (vote (vote [] 1 "10.0.0.1" 1 none).1 1 "10.0.0.1" 1
        (some 7)).1.find? (ratingKey 1 "10.0.0.1") = none :=
  vote_same_value_roundtrip [] 1 "10.0.0.1" 1 none (some 7) rfl

/-- Witness for C2: the +1 then -1 sequence at a concrete input. -/
theorem vote_opposite_value_updates_witness :
    (vote [] 1 "10.0.0.1" 1 none).2.status = "created" ∧
    (vote (vote [] 1 "10.0.0.1" 1 none).1 1 "10.0.0.1" (-1)
        (some 7)).2.status = "updated" ∧
    (vote (vote [] 1 "10.0.0.1" 1 none).1 1 "10.0.0.1" (-1)
        (some 7)).1.filter (ratingKey 1 "10.0.0.1")
      = [⟨1, "10.0.0.1", -1, some 7⟩] :=
  vote_opposite_value_updates [] 1 "10.0.0.1" none (some 7) rfl

/-- C6 counterexample: a vote with value 5 (neither +1 nor -1) is not
rejected: it returns status "created" and persists a rating row with
value 5. -/
theorem vote_out_of_range_value_accepted :
    (vote [] 1 "10.0.0.1" 5 none).2.status = "created" ∧
    (vote [] 1 "10.0.0.1" 5 none).1 =
      [{ article_id := 1, ip_address := "10.0.0.1", value := 5,
         user := none }] :=
  ⟨rfl, rfl⟩

/-- C6 amended: `vote` performs no range validation of the parsed value:
from a state with no row for the key, any integer value is persisted as-is
and the call reports "created". -/
theorem vote_accepts_any_integer (db : RatingDB) (aid : Nat) (ip : String)
    (v : Int) (u : Option Nat)
    (h : db.find? (ratingKey aid ip) = none) :
    (vote db aid ip v u).1 = db ++ [⟨aid, ip, v, u⟩] ∧
    (vote db aid ip v u).2.status = "created" := by
  unfold vote; rw [h]; exact ⟨rfl, rfl⟩

/-- Witness for the amended C6 at a concrete out-of-range value. -/
theorem vote_accepts_any_integer_witness :
    (vote [] 2 "10.0.0.2" 5 none).1 = [] ++ [⟨2, "10.0.0.2", 5, none⟩] ∧
    (vote [] 2 "10.0.0.2" 5 none).2.status = "created" :=
  vote_accepts_any_integer [] 2 "10.0.0.2" 5 none rfl

/-- C4 counterexample: an authenticated submission stores the author
reference and at the same time populates name and email (copied from the
session user), so not exactly one of {author, (name, email)} is
populated. -/
theorem authenticated_comment_populates_all_identity_fields :
    ((form_valid 5 (some ⟨9, "alice", "a@x.com", "/users/alice/"⟩)
        ⟨"hi", "Bob", "b@x.com", none⟩ 1 "t" "av" false).1.author
      = some 9) ∧
    ((form_valid 5 (some ⟨9, "alice", "a@x.com", "/users/alice/"⟩)
        ⟨"hi", "Bob", "b@x.com", none⟩ 1 "t" "av" false).1.name
      = "alice") ∧
    ((form_valid 5 (some ⟨9, "alice", "a@x.com", "/users/alice/"⟩)
        ⟨"hi", "Bob", "b@x.com", none⟩ 1 "t" "av" false).1.email
      = "a@x.com") :=
  ⟨rfl, rfl, rfl⟩

/-- C4 amended: an anonymous submission stores the form's name and email
with a null author reference, while an authenticated submission stores the
author reference and additionally copies the session user's username and
email into the name and email fields. -/
theorem comment_identity_resolution (aid nid : Nat) (u : User)
    (form : CommentForm) :
    (commentFromForm aid (some u) form nid).author = some u.id ∧
    (commentFromForm aid (some u) form nid).name = u.username ∧
    (commentFromForm aid (some u) form nid).email = u.email ∧
    (commentFromForm aid none form nid).author = none ∧
    (commentFromForm aid none form nid).name = form.name ∧
    (commentFromForm aid none form nid).email = form.email :=
  ⟨rfl, rfl, rfl, rfl, rfl, rfl⟩

/-- C5: a submission citing a parent succeeds exactly when the cited parent
is an existing comment on the same article, and then the stored comment
cites that parent; when no such comment exists the submission fails with
ValidationError, persisting nothing. -/
theorem comment_parent_validation (comments : List CommentRow) (aid : Nat)
    (user : Option User) (form : CommentForm) (nid pid : Nat)
    (hp : form.parent = some pid) :
    ((∃ p ∈ comments, p.id = pid ∧ p.article_id = aid) →
        ∃ c, submitComment comments aid user form nid =
            Except.ok (comments ++ [c], c) ∧ c.parent_id = some pid) ∧
    ((∀ p ∈ comments, ¬(p.id = pid ∧ p.article_id = aid)) →
        submitComment comments aid user form nid
          = Except.error "ValidationError") := by
  constructor
  · rintro ⟨p, hmem, hid, hart⟩
    refine ⟨commentFromForm aid user form nid, ?_, ?_⟩
    · unfold submitComment clean_parent
      rw [hp]
      have hany : comments.any
          (fun c => c.id == pid && c.article_id == aid) = true :=
        List.any_eq_true.mpr ⟨p, hmem, by simp [hid, hart]⟩
      simp [hany]
    · cases user <;> simp [commentFromForm, hp]
  · intro hnone
    unfold submitComment clean_parent
    rw [hp]
    have hany : comments.any
        (fun c => c.id == pid && c.article_id == aid) = false := by
      rw [List.any_eq_false]
      intro x hx
      simp only [Bool.and_eq_true, beq_iff_eq, not_and]
      exact fun h1 h2 => hnone x hx ⟨h1, h2⟩
    simp [hany]

/-- Witness for C5: both directions at concrete inputs — a parent on the
same article is accepted, a parent on a different article is rejected. -/
theorem comment_parent_validation_witness :
    (∃ c, submitComment [(⟨1, 5, none, "n", "e", none, "c"⟩ : CommentRow)]
        5 none ⟨"x", "N", "E", some 1⟩ 2 =
        Except.ok ([(⟨1, 5, none, "n", "e", none, "c"⟩ : CommentRow)]
          ++ [c], c) ∧ c.parent_id = some 1) ∧
    submitComment [(⟨1, 6, none, "n", "e", none, "c"⟩ : CommentRow)]
        5 none ⟨"x", "N", "E", some 1⟩ 2
      = Except.error "ValidationError" :=
  ⟨(comment_parent_validation
      [(⟨1, 5, none, "n", "e", none, "c"⟩ : CommentRow)] 5 none
      ⟨"x", "N", "E", some 1⟩ 2 1 rfl).1
      ⟨⟨1, 5, none, "n", "e", none, "c"⟩, by simp, rfl, rfl⟩,
   (comment_parent_validation
      [(⟨1, 6, none, "n", "e", none, "c"⟩ : CommentRow)] 5 none
      ⟨"x", "N", "E", some 1⟩ 2 1 rfl).2
      (by intro p hp; simp at hp; subst hp; simp)⟩

/-- C7: for any shuffle that permutes the ranked candidate list,
`get_similar_articles` never contains the reference article and returns at
most 6 entries — the shuffled full candidate list truncated to 6. -/
theorem similar_articles_exclude_self_and_capped
    (shuffle : List TaggedArticle → List TaggedArticle)
    (db : List TaggedArticle) (obj : TaggedArticle)
    (h : (shuffle (similarCandidates db obj)).Perm
      (similarCandidates db obj)) :
    obj ∉ get_similar_articles shuffle db obj ∧
    (get_similar_articles shuffle db obj).length ≤ 6 := by
  constructor
  · intro hmem
    have h1 : obj ∈ shuffle (similarCandidates db obj) :=
      List.take_subset 6 _ hmem
    have h2 : obj ∈ similarCandidates db obj := h.mem_iff.mp h1
    have h3 : obj ∈ db.filter (fun a =>
        (a.tags.any fun t => obj.tags.contains t) && a.id != obj.id) := by
      unfold similarCandidates at h2
      exact (List.mergeSort_perm _ _).mem_iff.mp h2
    have h4 := List.of_mem_filter h3
    simp at h4
  · exact List.length_take_le 6 (shuffle (similarCandidates db obj))

/-- Witness for C7: the identity shuffle on a concrete article store. -/
theorem similar_articles_exclude_self_and_capped_witness :
    (⟨1, [10, 20]⟩ : TaggedArticle) ∉ get_similar_articles id
      [⟨1, [10, 20]⟩, ⟨2, [10]⟩, ⟨3, [20, 30]⟩, ⟨4, [40]⟩, ⟨5, [10, 20]⟩]
      ⟨1, [10, 20]⟩ ∧
    (get_similar_articles id
      [⟨1, [10, 20]⟩, ⟨2, [10]⟩, ⟨3, [20, 30]⟩, ⟨4, [40]⟩, ⟨5, [10, 20]⟩]
      ⟨1, [10, 20]⟩).length ≤ 6 :=
  similar_articles_exclude_self_and_capped id
    [⟨1, [10, 20]⟩, ⟨2, [10]⟩, ⟨3, [20, 30]⟩, ⟨4, [40]⟩, ⟨5, [10, 20]⟩]
    ⟨1, [10, 20]⟩ (List.Perm.refl _)

/-- C8: an anonymous AJAX submission with no parent stores the form's name
and email with null author and null parent, and the reply's
`get_absolute_url` is `"mailto:"` followed by the submitted email; for an
authenticated submission it is the author's profile link instead. -/
theorem ajax_comment_reply_contact_link (aid nid : Nat)
    (form : CommentForm) (u : User) (t av : String)
    (hp : form.parent = none) :
    (form_valid aid none form nid t av true).1.article_id = aid ∧
    (form_valid aid none form nid t av true).1.author = none ∧
    (form_valid aid none form nid t av true).1.name = form.name ∧
    (form_valid aid none form nid t av true).1.email = form.email ∧
    (form_valid aid none form nid t av true).1.parent_id = none ∧
    Option.map CommentAjaxData.get_absolute_url
        (form_valid aid none form nid t av true).2
      = some ("mailto:" ++ form.email) ∧
    Option.map CommentAjaxData.get_absolute_url
        (form_valid aid (some u) form nid t av true).2
      = some u.profile_url := by
  simp [form_valid, commentFromForm, hp]

/-- Witness for C8: the spec's "Bob" scenario on article 5. -/
theorem ajax_comment_reply_contact_link_witness :
    (form_valid 5 none ⟨"Nice post", "Bob", "bob@x.com", none⟩ 1 "t" "av"
        true).1.article_id = 5 ∧
    (form_valid 5 none ⟨"Nice post", "Bob", "bob@x.com", none⟩ 1 "t" "av"
        true).1.author = none ∧
    (form_valid 5 none ⟨"Nice post", "Bob", "bob@x.com", none⟩ 1 "t" "av"
        true).1.name = "Bob" ∧
    (form_valid 5 none ⟨"Nice post", "Bob", "bob@x.com", none⟩ 1 "t" "av"
        true).1.email = "bob@x.com" ∧
    (form_valid 5 none ⟨"Nice post", "Bob", "bob@x.com", none⟩ 1 "t" "av"
        true).1.parent_id = none ∧
    Option.map CommentAjaxData.get_absolute_url
        (form_valid 5 none ⟨"Nice post", "Bob", "bob@x.com", none⟩ 1 "t"
          "av" true).2
      = some ("mailto:" ++ "bob@x.com") ∧
    Option.map CommentAjaxData.get_absolute_url
        (form_valid 5 (some ⟨9, "alice", "a@x.com", "/users/alice/"⟩)
          ⟨"Nice post", "Bob", "bob@x.com", none⟩ 1 "t" "av" true).2
      = some (⟨9, "alice", "a@x.com", "/users/alice/"⟩ : User).profile_url :=
  ajax_comment_reply_contact_link 5 1
    ⟨"Nice post", "Bob", "bob@x.com", none⟩
    ⟨9, "alice", "a@x.com", "/users/alice/"⟩ "t" "av" rfl

/-- C10: the stored author, name, and email of an authenticated submission
depend only on the session user — any two forms (in particular two forms
differing only in their name and email inputs) yield identical stored
identity fields for the same session user. -/
theorem authenticated_comment_identity_from_session (aid nid : Nat)
    (u : User) (f1 f2 : CommentForm) :
    (commentFromForm aid (some u) f1 nid).author
      = (commentFromForm aid (some u) f2 nid).author ∧
    (commentFromForm aid (some u) f1 nid).name
      = (commentFromForm aid (some u) f2 nid).name ∧
    (commentFromForm aid (some u) f1 nid).email
      = (commentFromForm aid (some u) f2 nid).email :=
  ⟨rfl, rfl, rfl⟩

end Selfincome
